import Mathlib

/-!
Shallow embedding of `main.py` (Outlook Draft Creator): the per-contact
pipeline — credential acquisition, template rendering, optional AI
personalization, draft submission over HTTP, and per-row audit logging —
modelled as pure Lean functions.  External effects (HTTP responses,
exceptions, environment variables) are passed in explicitly; emitted
effects (requests issued, log lines printed, rows appended, sleeps) are
returned explicitly.
-/

namespace AIEmails

/-- A cell of the spreadsheet row as seen by the pipeline: either a real
string value or a pandas NaN (missing value). -/
inductive Cell where
  | nan : Cell
  | str (s : String) : Cell
deriving DecidableEq, Repr

/-- A raw contact row: mapping from column name to cell, as produced by
`row.to_dict()` in `main`. -/
def Row : Type := List (String × Cell)

/-- The NaN-normalization loop in `main`: every NaN value is replaced by
the empty string (`if pd.isna(value): row_data[key] = ""`). -/
def normalizeCell : Cell → String
  | .nan => ""
  | .str s => s

/-- Normalized row data: every field is a string. -/
def normalizeRow (row : Row) : List (String × String) :=
  row.map (fun p => (p.1, normalizeCell p.2))

/-- Model of `row_data.get(key, '')`: first value bound to `key`, empty string when
the key is absent. -/
def getStr (fields : List (String × String)) (k : String) : String :=
  ((fields.find? (fun p => p.1 == k)).map Prod.snd).getD ""

/-- Model of `dict.get(key, default)` over a parsed JSON object with string values. -/
def lookupKV (kvs : List (String × String)) (k : String) : Option String :=
  (kvs.find? (fun p => p.1 == k)).map Prod.snd

/-! ## Draft Submitter (`OutlookDraftCreator.create_draft`) -/

/-- The body a HTTP response carries, as consumed via `response.json()`:
either a parsed JSON object (string-valued fields are all `create_draft`
reads), or malformed JSON on which `.json()` raises with some message. -/
inductive HttpBody where
  | obj (kvs : List (String × String)) : HttpBody
  | malformed (errMsg : String) : HttpBody
deriving DecidableEq, Repr

/-- A HTTP response: status code, body, and raw text. -/
structure HttpResponse where
  status : Nat
  body : HttpBody
  text : String
deriving DecidableEq, Repr

/-- Outcome of `requests.post`: a response, or a transport-level exception
carrying `str(e)` (`Except.error`). -/
def HttpOutcome : Type := Except String HttpResponse

/-- The result dict of `create_draft`: `{"status": "success", "draft_id": id}`
or `{"status": "error", "error": detail}`. -/
inductive DraftResult where
  | success (draft_id : String) : DraftResult
  | error (errMsg : String) : DraftResult
deriving DecidableEq, Repr

/-- The `result['status']` field. -/
def DraftResult.statusStr : DraftResult → String
  | .success _ => "success"
  | .error _ => "error"

/-- Model of `result.get('draft_id', '')`: the error dict carries no `draft_id` key,
so the getter falls back to the empty string. -/
def DraftResult.draftIdOrEmpty : DraftResult → String
  | .success id => id
  | .error _ => ""

/-- The POST request `create_draft` issues to `/me/messages`. -/
structure DraftRequest where
  toAddress : String
  subject : String
  body : String
deriving DecidableEq, Repr

/-- Embedding of `OutlookDraftCreator.create_draft(email, subject, body)`.
The held token and the outcome of the single `requests.post` call are
explicit inputs; the second component lists the requests actually issued.
Mirrors the source: falsy token short-circuits; status 201 parses the body
and takes `result.get("id", "unknown")`; any other status yields the
`HTTP {code}: {text}` error; any exception (transport error, or `.json()`
raising on a 201) is caught and yields `str(e)`. -/
def create_draft (access_token : String) (email subject body : String)
    (outcome : HttpOutcome) : DraftResult × List DraftRequest :=
  if access_token = "" then
    (.error "No access token", [])
  else
    let reqs := [DraftRequest.mk email subject body]
    match outcome with
    | .error e => (.error e, reqs)
    | .ok r =>
      if r.status = 201 then
        match r.body with
        | .obj kvs => (.success ((lookupKV kvs "id").getD "unknown"), reqs)
        | .malformed e => (.error e, reqs)
      else
        (.error ("HTTP " ++ toString r.status ++ ": " ++ r.text), reqs)

/-! ## Personalization Augmenter (`OutlookDraftCreator.personalize_with_ai`) -/

/-- Body of the generative-service response as consumed inside the `try`
block: `parsed content` models a well-formed body where
`result["choices"][0]["message"]["content"]` is `content`; `malformed`
models any body on which that extraction raises (bad JSON, missing keys,
empty choices), with the exception text. -/
inductive AIBody where
  | parsed (content : String) : AIBody
  | malformed (errMsg : String) : AIBody
deriving DecidableEq, Repr

/-- A generative-service HTTP response. -/
structure AIResponse where
  status : Nat
  body : AIBody
deriving DecidableEq, Repr

/-- Outcome of the `requests.post` to the completions endpoint: a response
or an exception (e.g. timeout) carrying `str(e)`. -/
def AIOutcome : Type := Except String AIResponse

/-- Python's six ASCII whitespace characters stripped by `str.strip()`. -/
def pySpace (c : Char) : Bool :=
  c = ' ' || c = '\t' || c = '\n' || c = '\x0d' || c = '\x0b' || c = '\x0c'

/-- Model of `str.strip()`: drop leading and trailing whitespace. -/
def pyStrip (s : String) : String :=
  ⟨((s.data.dropWhile pySpace).reverse.dropWhile pySpace).reverse⟩

/-- Model of `len(s)` (code points). -/
def pyLen (s : String) : Nat := s.data.length

/-- Model of the slice `s[:n]`. -/
def pyTake (s : String) (n : Nat) : String := ⟨s.data.take n⟩

/-- The f-string prompt built from four record fields. -/
def buildPrompt (row_data : List (String × String)) : String :=
  "Based on this contact info, write a brief, personalized sentence (max 35 words) to add to a cold email:\n        Name: "
    ++ getStr row_data "first_name" ++ " " ++ getStr row_data "last_name"
    ++ "\n        Company: " ++ getStr row_data "company"
    ++ "\n        Role: " ++ getStr row_data "role"
    ++ "\n        Observation: " ++ getStr row_data "observation"
    ++ "\n        \n        Write a natural, genuine-sounding personalization:"

/-- Embedding of `OutlookDraftCreator.personalize_with_ai(row_data)`.
`apiKey` is `os.getenv("OPENAI_API_KEY")` (empty = unset); `outcome` is the
result of the single network call when one is made.  Returns
(returned string, console log lines, prompts sent over the network).
Mirrors the source: no key → immediate `""` with no call; exception
anywhere in the `try` block → caught, printed, `""`; status 200 with a
well-formed body → strip, truncate to 197 chars plus `"..."` when longer
than 200, prefix two newlines; any non-200 status falls through to the
final `return ""` with no print. -/
def personalize_with_ai (apiKey : String) (row_data : List (String × String))
    (outcome : AIOutcome) : String × List String × List String :=
  if apiKey = "" then
    ("", [], [])
  else
    let prompt := buildPrompt row_data
    match outcome with
    | .error e => ("", ["AI personalization failed: " ++ e], [prompt])
    | .ok r =>
      if r.status = 200 then
        match r.body with
        | .parsed content =>
          let personalization := pyStrip content
          let personalization :=
            if 200 < pyLen personalization then
              pyTake personalization 197 ++ "..."
            else personalization
          ("\n\n" ++ personalization, [], [prompt])
        | .malformed e => ("", ["AI personalization failed: " ++ e], [prompt])
      else
        ("", [], [prompt])

/-! ## Template Renderer (`render_template`, over a jinja2 model)

The source renders with `jinja2.Template(template_text).render(**row_data)`.
We model the subset of jinja2 the templates exercise: `\x7b\x7b name \x7d\x7d`
print statements over simple identifiers, undefined names rendering as the
empty string (jinja2's default `Undefined` stringifies empty), and a
`TemplateSyntaxError` on an unterminated or non-identifier print statement.
-/

/-- One token of a parsed template: a literal character or a variable
print statement. -/
inductive Tok where
  | lit (c : Char) : Tok
  | var (name : String) : Tok
deriving DecidableEq, Repr

/-- Scan up to the closing `\x7d\x7d` of a print statement; returns the
enclosed characters and the remainder, or `none` when unterminated. -/
def splitAtClose : List Char → Option (List Char × List Char)
  | [] => none
  | '\x7d' :: '\x7d' :: rest => some ([], rest)
  | c :: rest => (splitAtClose rest).map (fun p => (c :: p.1, p.2))

/-- A jinja2 identifier: letters, digits and underscore, not starting with
a digit. -/
def isIdentChar (c : Char) : Bool := c.isAlpha || c.isDigit || c = '_'

/-- Parse the inside of a print statement: surrounding spaces allowed, then
one identifier.  `none` models a `TemplateSyntaxError`. -/
def parseName (cs : List Char) : Option String :=
  let trimmed := (cs.dropWhile (· = ' ')).reverse.dropWhile (· = ' ') |>.reverse
  match trimmed with
  | [] => none
  | c :: rest =>
    if (c.isAlpha || c = '_') && rest.all isIdentChar then
      some ⟨trimmed⟩
    else
      none

/-- Fuel-driven tokenizer for the jinja2 subset; `fuel` at least the input
length plus one never runs out. -/
def tokenizeFuel : Nat → List Char → Except String (List Tok)
  | 0, _ => .error "tokenizer out of fuel"
  | _ + 1, [] => .ok []
  | fuel + 1, '\x7b' :: '\x7b' :: rest =>
    match splitAtClose rest with
    | none => .error "unexpected end of template, expected end of print statement"
    | some (inside, r) =>
      match parseName inside with
      | none => .error "expected name in print statement"
      | some v => (tokenizeFuel fuel r).map (fun ts => Tok.var v :: ts)
  | fuel + 1, c :: rest => (tokenizeFuel fuel rest).map (fun ts => Tok.lit c :: ts)

/-- Substitute the tokens against the row's fields; undefined names render
empty. -/
def renderToks (fields : List (String × String)) (toks : List Tok) : List Char :=
  toks.foldr
    (fun t acc =>
      match t with
      | .lit c => c :: acc
      | .var v => (getStr fields v).data ++ acc)
    []

/-- Model of `jinja2.Template(t).render(**fields)`: `Except.error` models the raised
exception, carrying its message. -/
def renderJinja (t : String) (fields : List (String × String)) : Except String String :=
  (tokenizeFuel (t.data.length + 1) t.data).map (fun toks => ⟨renderToks fields toks⟩)

/-- Embedding of `render_template(template_text, row_data)`: render, and on any
exception print a `Template rendering error:` line (second component) and
return the template text verbatim. -/
def render_template (template_text : String) (row_data : List (String × String)) :
    String × List String :=
  match renderJinja template_text row_data with
  | .ok s => (s, [])
  | .error e => (template_text, ["Template rendering error: " ++ e])

/-- The `SUBJECT_TEXT` constant of the source. -/
def SUBJECT_TEXT : String :=
  "PASTE YOUR SUBJECT HERE (you may include \x7b\x7bplaceholders\x7d\x7d)"

/-- The `BODY_TEXT` constant of the source. -/
def BODY_TEXT : String :=
  "PASTE YOUR BODY HERE EXACTLY.\nYou may reference Excel fields like \x7b\x7bfirst_name\x7d\x7d, \x7b\x7bcompany\x7d\x7d, \x7b\x7brole\x7d\x7d, \x7b\x7bobservation\x7d\x7d.\nIf you don\x27t want placeholders, leave plain text.\n"

/-! ## Result Logger (`log_result`) -/

/-- The fixed header row written when the CSV file does not yet exist. -/
def headerRow : List String :=
  ["email", "company", "first_name", "subject", "draft_id", "status"]

/-- The audit CSV as a list of rows; `none` models a file that does not
exist yet (`os.path.exists` false). -/
def LogFile : Type := Option (List (List String))

/-- Embedding of `log_result(csv_file, email, company, first_name, subject, draft_id,
status)`: append one row, writing the header first when the file did not
exist.  Returns the new file contents. -/
def log_result (file : LogFile) (email company first_name subject draft_id status : String) :
    List (List String) :=
  let rows := match file with
    | none => [headerRow]
    | some rs => rs
  rows ++ [[email, company, first_name, subject, draft_id, status]]

/-- The contents of a possibly-not-yet-existing file, an empty file when
absent: what any append starts from, header included. -/
def baseRows (file : LogFile) : List (List String) :=
  match file with
  | none => [headerRow]
  | some rs => rs

/-! ## Credential Manager (`OutlookDraftCreator.authenticate`) -/

/-- The dict returned by `initiate_device_flow`: `user_code` (with the
verification URI) present, or absent on failure. -/
structure DeviceFlow where
  user_code : Option (String × String)
deriving DecidableEq, Repr

/-- The identity provider as `authenticate` observes it: the cached
accounts (`get_accounts`), the token `acquire_token_silent` yields for the
first account (`none` = `None`), the device flow dict, and the
`access_token` the blocking `acquire_token_by_device_flow` returns
(`none` = an error dict without the key). -/
structure AuthEnv where
  accounts : List String
  silentToken : Option String
  deviceFlow : DeviceFlow
  deviceToken : Option String
deriving DecidableEq, Repr

/-- Observable outcome of `authenticate`: returned bool, the in-memory
`self.access_token` afterwards (empty = still `None`), how many times the
token cache was persisted to disk, and whether `initiate_device_flow` was
called. -/
structure AuthOutcome where
  ok : Bool
  access_token : String
  cacheSaves : Nat
  deviceFlowStarted : Bool
deriving DecidableEq, Repr

/-- The device-code branch of `authenticate`: initiate the flow; without a
`user_code` print and fail; otherwise block on the flow and keep the token
on success. -/
def deviceBranch (env : AuthEnv) : AuthOutcome :=
  match env.deviceFlow.user_code with
  | none => ⟨false, "", 0, true⟩
  | some _ =>
    match env.deviceToken with
    | some tok => ⟨true, tok, 1, true⟩
    | none => ⟨false, "", 0, true⟩

/-- Embedding of `OutlookDraftCreator.authenticate()`: with a cached account, try silent
acquisition first and on success store the token, persist the cache and
return `True`; otherwise fall through to the device-code flow. -/
def authenticate (env : AuthEnv) : AuthOutcome :=
  match env.accounts with
  | [] => deviceBranch env
  | _ :: _ =>
    match env.silentToken with
    | some tok => ⟨true, tok, 1, false⟩
    | none => deviceBranch env

/-! ## Batch Orchestrator (the per-contact loop of `main`) -/

/-- The command-line arguments the loop reads. -/
structure Args where
  delay_ms : Nat
  ai_personalize : Bool
deriving DecidableEq, Repr

/-- The environment of one run: the held access token, the generative-api
key, and for each contact index the outcome of the draft POST and of the
personalization call, when issued. -/
structure BatchEnv where
  access_token : String
  apiKey : String
  draftOutcome : Nat → HttpOutcome
  aiOutcome : Nat → AIOutcome

/-- Observable state accumulated by the loop: the audit CSV, the number of
`No email address, skipping` notices, the number of `time.sleep` pauses,
the draft POSTs issued, and the personalization prompts sent. -/
structure RunState where
  logFile : LogFile
  skips : Nat
  sleeps : Nat
  requests : List DraftRequest
  aiCalls : List String

/-- One iteration of the `for index, row in df.iterrows()` loop: normalize
NaNs, render both templates, optionally personalize (before the email
check, as in the source), then either skip on an empty email or submit,
log, and sleep unless this is the last index. -/
def processRow (args : Args) (env : BatchEnv) (n index : Nat) (row : Row)
    (st : RunState) : RunState :=
  let row_data := normalizeRow row
  let subject := (render_template SUBJECT_TEXT row_data).1
  let body0 := (render_template BODY_TEXT row_data).1
  let ai :=
    if args.ai_personalize then personalize_with_ai env.apiKey row_data (env.aiOutcome index)
    else ("", [], [])
  let body := if ai.1 = "" then body0 else body0 ++ ai.1
  let st := { st with aiCalls := st.aiCalls ++ ai.2.2 }
  let email := getStr row_data "email"
  if email = "" then
    { st with skips := st.skips + 1 }
  else
    let dr := create_draft env.access_token email subject body (env.draftOutcome index)
    let st :=
      { st with
        requests := st.requests ++ dr.2
        logFile := some (log_result st.logFile email (getStr row_data "company")
          (getStr row_data "first_name") subject dr.1.draftIdOrEmpty dr.1.statusStr) }
    if index < n - 1 then { st with sleeps := st.sleeps + 1 } else st

/-- The whole post-authentication loop of `main` over a contact list, on a
fresh (not yet existing) audit file. -/
def runBatch (args : Args) (env : BatchEnv) (rows : List Row) : RunState :=
  rows.enum.foldl (fun st p => processRow args env rows.length p.1 p.2 st)
    ⟨none, 0, 0, [], []⟩

/-- Total milliseconds spent in inter-request pauses: each executed
`time.sleep(args.delay_ms / 1000)` contributes one configured delay. -/
def totalPauseMs (args : Args) (st : RunState) : Nat :=
  st.sleeps * args.delay_ms

/-! ## Helper lemmas -/

/-- Every `create_draft` result dict has status `success` or `error`. -/
lemma statusStr_cases (r : DraftResult) :
    r.statusStr = "success" ∨ r.statusStr = "error" := by
  cases r <;> simp [DraftResult.statusStr]

/-- Every cause of a Failure result in `create_draft` — an absent token, a
transport-level exception, a non-201 response, or a 201 response whose
body is malformed (these are all its error branches) — yields an error
result, whose `draft_id` getter falls back to empty and whose status is
`error`, for every email, subject and body. -/
lemma create_draft_error_of (tok em s b : String) (out : HttpOutcome)
    (h : tok = "" ∨ (∃ m, out = Except.error m) ∨
      (∃ r, out = Except.ok r ∧ r.status ≠ 201) ∨
      (∃ r e, out = Except.ok r ∧ r.status = 201 ∧ r.body = HttpBody.malformed e)) :
    ((create_draft tok em s b out).1).draftIdOrEmpty = "" ∧
    ((create_draft tok em s b out).1).statusStr = "error" := by
  rcases h with h | ⟨m, h⟩ | ⟨r, h, hr⟩ | ⟨r, e, h, hr, hb⟩
  · simp [create_draft, h, DraftResult.draftIdOrEmpty, DraftResult.statusStr]
  · subst h
    unfold create_draft
    split <;> simp [DraftResult.draftIdOrEmpty, DraftResult.statusStr]
  · subst h
    unfold create_draft
    split <;> simp [hr, DraftResult.draftIdOrEmpty, DraftResult.statusStr]
  · subst h
    unfold create_draft
    split <;> simp [hr, hb, DraftResult.draftIdOrEmpty, DraftResult.statusStr]

/-- Appending a row via `log_result` is the base contents plus exactly the
one new row. -/
lemma log_result_eq (file : LogFile) (e c fn s d st : String) :
    log_result file e c fn s d st = baseRows file ++ [[e, c, fn, s, d, st]] := by
  cases file <;> rfl

/-- Characterization of one loop iteration on a contact whose normalized
email is empty: one skip notice, nothing else observable changes. -/
lemma processRow_skip (args : Args) (env : BatchEnv) (n index : Nat) (row : Row)
    (st : RunState) (h : getStr (normalizeRow row) "email" = "") :
    (processRow args env n index row st).logFile = st.logFile ∧
    (processRow args env n index row st).requests = st.requests ∧
    (processRow args env n index row st).skips = st.skips + 1 ∧
    (processRow args env n index row st).sleeps = st.sleeps := by
  simp [processRow, h]

/-- Characterization of one loop iteration on a contact whose normalized
email is non-empty: the draft result for this index is logged as exactly
one appended row, its requests are issued, no skip notice is printed, and
one pause happens exactly when the index is not the last. -/
lemma processRow_submit (args : Args) (env : BatchEnv) (n index : Nat) (row : Row)
    (st : RunState) (h : getStr (normalizeRow row) "email" ≠ "") :
    ∃ subject body,
      (processRow args env n index row st).logFile =
        some (baseRows st.logFile ++
          [[getStr (normalizeRow row) "email", getStr (normalizeRow row) "company",
            getStr (normalizeRow row) "first_name", subject,
            ((create_draft env.access_token (getStr (normalizeRow row) "email") subject body
              (env.draftOutcome index)).1).draftIdOrEmpty,
            ((create_draft env.access_token (getStr (normalizeRow row) "email") subject body
              (env.draftOutcome index)).1).statusStr]]) ∧
      (processRow args env n index row st).requests =
        st.requests ++ (create_draft env.access_token (getStr (normalizeRow row) "email")
          subject body (env.draftOutcome index)).2 ∧
      (processRow args env n index row st).skips = st.skips ∧
      (processRow args env n index row st).sleeps =
        st.sleeps + (if index < n - 1 then 1 else 0) := by
  refine ⟨(render_template SUBJECT_TEXT (normalizeRow row)).1, ?_, ?_⟩
  · exact
      (let row_data := normalizeRow row
       let body0 := (render_template BODY_TEXT row_data).1
       let ai :=
         if args.ai_personalize then
           personalize_with_ai env.apiKey row_data (env.aiOutcome index)
         else ("", [], [])
       if ai.1 = "" then body0 else body0 ++ ai.1)
  · simp only [processRow, h, if_false, log_result_eq]
    split <;> simp

/-- Unfolding of a three-contact batch into its three iterations. -/
lemma runBatch_three (args : Args) (env : BatchEnv) (ra rb rc : Row) :
    runBatch args env [ra, rb, rc] =
      processRow args env 3 2 rc (processRow args env 3 1 rb
        (processRow args env 3 0 ra ⟨none, 0, 0, [], []⟩)) := rfl

/-- The normalized email field of a one-column row. -/
lemma getStr_email_single (e : String) :
    getStr (normalizeRow [("email", Cell.str e)]) "email" = e := rfl

/-- Length of concatenated strings, on the list-of-chars model. -/
lemma pyLen_append (a b : String) : pyLen (a ++ b) = pyLen a + pyLen b := by
  cases a with
  | mk la =>
    cases b with
    | mk lb =>
      show (la ++ lb).length = la.length + lb.length
      exact List.length_append la lb

/-! ## Claim theorems -/

/-- Claim C3: for every HTTP response to the draft-creation request, a 201
status yields a Success result carrying the `id` field of the JSON body;
any other status yields a Failure carrying `HTTP {code}: {text}`; and a
transport-level exception yields a Failure carrying the exception
description.  `create_draft` is a total function, so it never raises to
the caller. -/
theorem spec_C3 (tok email subject body text msg v : String)
    (kvs : List (String × String)) (resp : HttpResponse)
    (htok : tok ≠ "") (hid : lookupKV kvs "id" = some v) (hst : resp.status ≠ 201) :
    (create_draft tok email subject body (.ok ⟨201, .obj kvs, text⟩)).1 = .success v ∧
    (create_draft tok email subject body (.ok resp)).1 =
      .error ("HTTP " ++ toString resp.status ++ ": " ++ resp.text) ∧
    (create_draft tok email subject body (.error msg)).1 = .error msg := by
  refine ⟨?_, ?_, ?_⟩ <;> simp [create_draft, htok, hid, hst]

/-- Concrete instantiation of the C3 theorem: the literal fixture body,
a 429 response, and a connection error. -/
theorem spec_C3_witness :
    (create_draft "tok" "a@b.c" "Subj" "Body"
      (.ok ⟨201, .obj [("id", "AAMk-example")], "body-text"⟩)).1 = .success "AAMk-example" ∧
    (create_draft "tok" "a@b.c" "Subj" "Body"
      (.ok ⟨429, .obj [], "Too Many Requests"⟩)).1 =
      .error ("HTTP " ++ toString 429 ++ ": " ++ "Too Many Requests") ∧
    (create_draft "tok" "a@b.c" "Subj" "Body" (.error "ConnectionError")).1 =
      .error "ConnectionError" :=
  spec_C3 "tok" "a@b.c" "Subj" "Body" "body-text" "ConnectionError" "AAMk-example"
    [("id", "AAMk-example")] ⟨429, .obj [], "Too Many Requests"⟩
    (by decide) (by rfl) (by decide)

/-- Claim C4, counterexample to the claim as stated: on a non-2xx status
(here 500) `personalize_with_ai` does return the empty string, but it logs
nothing — the `if response.status_code == 200` test simply falls through
to `return ""` without raising, so no `AI personalization failed` line is
printed, contradicting the claim that every augmentation error is
logged. -/
theorem spec_C4_cex :
    (personalize_with_ai "sk-key" [] (.ok ⟨500, AIBody.parsed "irrelevant"⟩)).1 = "" ∧
    (personalize_with_ai "sk-key" [] (.ok ⟨500, AIBody.parsed "irrelevant"⟩)).2.1 = [] :=
  ⟨rfl, rfl⟩

/-- Claim C4 (amended): on every augmentation error `personalize_with_ai`
returns the empty string and never propagates (it is a total function);
the error is logged for a transport exception (e.g. timeout) and for a
malformed 200 response body, while a non-2xx status returns the empty
string silently. -/
theorem spec_C4 (key msg e : String) (row : List (String × String)) (r : AIResponse)
    (hk : key ≠ "") (hr : r.status ≠ 200) :
    personalize_with_ai key row (.error msg) =
      ("", ["AI personalization failed: " ++ msg], [buildPrompt row]) ∧
    personalize_with_ai key row (.ok r) = ("", [], [buildPrompt row]) ∧
    personalize_with_ai key row (.ok ⟨200, .malformed e⟩) =
      ("", ["AI personalization failed: " ++ e], [buildPrompt row]) := by
  refine ⟨?_, ?_, ?_⟩ <;> simp [personalize_with_ai, hk, hr]

/-- Concrete instantiation of the C4 theorem: a timeout, a 429 response,
and a malformed 200 body. -/
theorem spec_C4_witness :
    personalize_with_ai "sk-key" [] (.error "Read timed out") =
      ("", ["AI personalization failed: " ++ "Read timed out"], [buildPrompt []]) ∧
    personalize_with_ai "sk-key" [] (.ok ⟨429, AIBody.parsed "x"⟩) =
      ("", [], [buildPrompt []]) ∧
    personalize_with_ai "sk-key" [] (.ok ⟨200, .malformed "KeyError"⟩) =
      ("", ["AI personalization failed: " ++ "KeyError"], [buildPrompt []]) :=
  spec_C4 "sk-key" "Read timed out" "KeyError" [] ⟨429, AIBody.parsed "x"⟩
    (by decide) (by decide)

/-- Claim C5: `render_template` is a total function (never raises), and
whenever the underlying jinja2 rendering fails, it prints a
`Template rendering error` line and returns the template text verbatim. -/
theorem spec_C5 (t e : String) (row : List (String × String))
    (h : renderJinja t row = .error e) :
    render_template t row = (t, ["Template rendering error: " ++ e]) := by
  simp [render_template, h]

/-- Concrete instantiation of the C5 theorem: an unterminated print
statement renders verbatim. -/
theorem spec_C5_witness :
    render_template "Hello \x7b\x7bfirst_name" [("first_name", "Al")] =
      ("Hello \x7b\x7bfirst_name",
        ["Template rendering error: " ++
          "unexpected end of template, expected end of print statement"]) :=
  spec_C5 "Hello \x7b\x7bfirst_name"
    "unexpected end of template, expected end of print statement"
    [("first_name", "Al")] rfl

/-- Claim C6: with an absent access token, `create_draft` returns the
Failure dict immediately and issues no network request, for every email,
subject and body. -/
theorem spec_C6 (email subject body : String) (outcome : HttpOutcome) :
    create_draft "" email subject body outcome = (.error "No access token", []) := rfl

/-- Claim C7: with no generative-service API key configured,
`personalize_with_ai` returns the empty string immediately for every
record and outcome, logging nothing and issuing zero network calls. -/
theorem spec_C7 (row : List (String × String)) (outcome : AIOutcome) :
    personalize_with_ai "" row outcome = ("", [], []) := rfl

/-- Claim C8: on a 200 response with a well-formed body,
`personalize_with_ai` returns the whitespace-trimmed completion prefixed
by exactly two newlines; the returned completion part is at most 200
characters, equal to the trimmed completion when that already fits, and
its 197-character prefix plus an ellipsis marker when it does not. -/
theorem spec_C8 (key content : String) (row : List (String × String)) (hk : key ≠ "") :
    ∃ p, personalize_with_ai key row (.ok ⟨200, .parsed content⟩) =
        ("\n\n" ++ p, [], [buildPrompt row]) ∧
      pyLen p ≤ 200 ∧
      (pyLen (pyStrip content) ≤ 200 → p = pyStrip content) ∧
      (200 < pyLen (pyStrip content) → p = pyTake (pyStrip content) 197 ++ "...") := by
  refine ⟨if 200 < pyLen (pyStrip content) then pyTake (pyStrip content) 197 ++ "..."
    else pyStrip content, ?_, ?_, ?_, ?_⟩
  · simp [personalize_with_ai, hk]
  · split
    · next h =>
      rw [pyLen_append]
      have h197 : pyLen (pyTake (pyStrip content) 197) = 197 := by
        show ((pyStrip content).data.take 197).length = 197
        rw [List.length_take]
        exact Nat.min_eq_left (by exact le_of_lt (lt_trans (by norm_num) h))
      rw [h197]
      norm_num [pyLen]
    · next h => omega
  · intro hle
    rw [if_neg (by omega)]
  · intro hgt
    rw [if_pos hgt]

/-- Concrete instantiation of the C8 theorem. -/
theorem spec_C8_witness :
    ∃ p, personalize_with_ai "sk-key" [] (.ok ⟨200, .parsed "  Great work at Acme!  "⟩) =
        ("\n\n" ++ p, [], [buildPrompt []]) ∧
      pyLen p ≤ 200 ∧
      (pyLen (pyStrip "  Great work at Acme!  ") ≤ 200 →
        p = pyStrip "  Great work at Acme!  ") ∧
      (200 < pyLen (pyStrip "  Great work at Acme!  ") →
        p = pyTake (pyStrip "  Great work at Acme!  ") 197 ++ "...") :=
  spec_C8 "sk-key" "  Great work at Acme!  " [] (by decide)

/-- Claim C9: when a cached account yields a token via silent acquisition,
`authenticate` returns true, holds that token in memory, persists the
cache once, and never initiates the device-authorization flow. -/
theorem spec_C9 (env : AuthEnv) (tok : String)
    (hacc : env.accounts ≠ []) (hsil : env.silentToken = some tok) :
    authenticate env = ⟨true, tok, 1, false⟩ := by
  rcases h : env.accounts with _ | ⟨a, as⟩
  · exact absurd h hacc
  · simp [authenticate, h, hsil]

/-- Concrete instantiation of the C9 theorem. -/
theorem spec_C9_witness :
    authenticate ⟨["user@contoso.com"], some "tok-silent", ⟨none⟩, none⟩ =
      ⟨true, "tok-silent", 1, false⟩ :=
  spec_C9 ⟨["user@contoso.com"], some "tok-silent", ⟨none⟩, none⟩ "tok-silent"
    (by decide) rfl

/-- Claim C10: a 201 response whose JSON body lacks an `id` key still
yields a Success result with the literal draft id `unknown`; and whenever
`create_draft` returns a Failure — for any of its Failure causes: an
absent token, a transport exception, a non-201 response (e.g. 429), or a
201 response with a malformed body — the audit row written for that
contact carries an empty `draft_id` field and status `error`. -/
theorem spec_C10 (tok email subject body text : String)
    (kvs : List (String × String)) (args : Args) (env : BatchEnv) (n index : Nat)
    (row : Row) (st : RunState)
    (htok : tok ≠ "") (hid : lookupKV kvs "id" = none)
    (hemail : getStr (normalizeRow row) "email" ≠ "")
    (hfail : env.access_token = "" ∨ (∃ m, env.draftOutcome index = Except.error m) ∨
      (∃ r, env.draftOutcome index = Except.ok r ∧ r.status ≠ 201) ∨
      (∃ r e, env.draftOutcome index = Except.ok r ∧ r.status = 201 ∧
        r.body = HttpBody.malformed e)) :
    (create_draft tok email subject body (.ok ⟨201, .obj kvs, text⟩)).1 = .success "unknown" ∧
    ∃ subject2,
      (processRow args env n index row st).logFile =
        some (baseRows st.logFile ++
          [[getStr (normalizeRow row) "email", getStr (normalizeRow row) "company",
            getStr (normalizeRow row) "first_name", subject2, "", "error"]]) := by
  constructor
  · simp [create_draft, htok, hid]
  · obtain ⟨subject2, body2, hlog, -, -, -⟩ :=
      processRow_submit args env n index row st hemail
    have hc := create_draft_error_of env.access_token
      (getStr (normalizeRow row) "email") subject2 body2 (env.draftOutcome index) hfail
    exact ⟨subject2, by rw [hlog, hc.1, hc.2]⟩

/-- Concrete instantiation of the C10 theorem; the Failure here is a 429
response, one of the non-exception Failure causes. -/
theorem spec_C10_witness :
    (create_draft "tok" "x@y.z" "S" "B" (.ok ⟨201, .obj [("notid", "v")], "t"⟩)).1 =
      .success "unknown" ∧
    ∃ subject2,
      (processRow ⟨1000, false⟩
          ⟨"tok", "", fun _ => .ok ⟨429, .obj [], "Too Many Requests"⟩,
            fun _ => .error "unused"⟩
          1 0 [("email", Cell.str "a@b.c")] ⟨none, 0, 0, [], []⟩).logFile =
        some (baseRows (none : LogFile) ++
          [[getStr (normalizeRow [("email", Cell.str "a@b.c")]) "email",
            getStr (normalizeRow [("email", Cell.str "a@b.c")]) "company",
            getStr (normalizeRow [("email", Cell.str "a@b.c")]) "first_name",
            subject2, "", "error"]]) :=
  spec_C10 "tok" "x@y.z" "S" "B" "t" [("notid", "v")]
    ⟨1000, false⟩
    ⟨"tok", "", fun _ => .ok ⟨429, .obj [], "Too Many Requests"⟩, fun _ => .error "unused"⟩
    1 0 [("email", Cell.str "a@b.c")] ⟨none, 0, 0, [], []⟩
    (by decide) (by rfl) (by decide)
    (Or.inr (Or.inr (Or.inl
      ⟨⟨429, HttpBody.obj [], "Too Many Requests"⟩, rfl, by decide⟩)))

/-- Claim C1: processing a contact whose normalized email is non-empty
appends exactly one audit row, whose status is `success` or `error`;
processing a contact whose normalized email is empty issues no draft
submission and appends no audit row. -/
theorem spec_C1 (args : Args) (env : BatchEnv) (n i j : Nat) (rowA rowB : Row)
    (stA stB : RunState)
    (hA : getStr (normalizeRow rowA) "email" ≠ "")
    (hB : getStr (normalizeRow rowB) "email" = "") :
    (∃ subject draft_id status,
      (processRow args env n i rowA stA).logFile =
        some (baseRows stA.logFile ++
          [[getStr (normalizeRow rowA) "email", getStr (normalizeRow rowA) "company",
            getStr (normalizeRow rowA) "first_name", subject, draft_id, status]]) ∧
      (status = "success" ∨ status = "error")) ∧
    (processRow args env n j rowB stB).logFile = stB.logFile ∧
    (processRow args env n j rowB stB).requests = stB.requests := by
  refine ⟨?_, (processRow_skip args env n j rowB stB hB).1,
    (processRow_skip args env n j rowB stB hB).2.1⟩
  obtain ⟨subject, body, hlog, -, -, -⟩ := processRow_submit args env n i rowA stA hA
  exact ⟨subject, _, _, hlog, statusStr_cases _⟩

/-- Concrete instantiation of the C1 theorem: one contact with an email
and one whose email cell is NaN. -/
theorem spec_C1_witness :
    (∃ subject draft_id status,
      (processRow ⟨1000, false⟩
          ⟨"tok", "", fun _ => .ok ⟨201, .obj [("id", "D1")], ""⟩, fun _ => .error "unused"⟩
          2 0 [("email", Cell.str "a@b.c")] ⟨none, 0, 0, [], []⟩).logFile =
        some (baseRows (none : LogFile) ++
          [[getStr (normalizeRow [("email", Cell.str "a@b.c")]) "email",
            getStr (normalizeRow [("email", Cell.str "a@b.c")]) "company",
            getStr (normalizeRow [("email", Cell.str "a@b.c")]) "first_name",
            subject, draft_id, status]]) ∧
      (status = "success" ∨ status = "error")) ∧
    (processRow ⟨1000, false⟩
        ⟨"tok", "", fun _ => .ok ⟨201, .obj [("id", "D1")], ""⟩, fun _ => .error "unused"⟩
        2 1 [("email", Cell.nan)] ⟨none, 0, 0, [], []⟩).logFile = (none : LogFile) ∧
    (processRow ⟨1000, false⟩
        ⟨"tok", "", fun _ => .ok ⟨201, .obj [("id", "D1")], ""⟩, fun _ => .error "unused"⟩
        2 1 [("email", Cell.nan)] ⟨none, 0, 0, [], []⟩).requests = [] :=
  spec_C1 ⟨1000, false⟩
    ⟨"tok", "", fun _ => .ok ⟨201, .obj [("id", "D1")], ""⟩, fun _ => .error "unused"⟩
    2 0 1 [("email", Cell.str "a@b.c")] [("email", Cell.nan)]
    ⟨none, 0, 0, [], []⟩ ⟨none, 0, 0, [], []⟩ (by decide) rfl

/-- Claim C2, counterexample to the claim as stated: in a batch of three
contacts where only the second has an empty email, the run does append
exactly 2 audit rows and emit exactly one skip notice, but it executes
only one `time.sleep` — the pause scheduled between the skipped second
contact and the third is never executed, because `continue` jumps over
the delay — so the total pause is 1000 ms, not the claimed
2 × 1000 ms. -/
theorem spec_C2_cex :
    (runBatch ⟨1000, false⟩
      ⟨"tok", "", fun _ => .ok ⟨201, .obj [("id", "D1")], ""⟩, fun _ => .error "unused"⟩
      [[("email", Cell.str "a@x.com")], [("email", Cell.str "")],
        [("email", Cell.str "c@x.com")]]).skips = 1 ∧
    ((runBatch ⟨1000, false⟩
      ⟨"tok", "", fun _ => .ok ⟨201, .obj [("id", "D1")], ""⟩, fun _ => .error "unused"⟩
      [[("email", Cell.str "a@x.com")], [("email", Cell.str "")],
        [("email", Cell.str "c@x.com")]]).logFile.getD []).length = 3 ∧
    ¬ totalPauseMs ⟨1000, false⟩
      (runBatch ⟨1000, false⟩
        ⟨"tok", "", fun _ => .ok ⟨201, .obj [("id", "D1")], ""⟩, fun _ => .error "unused"⟩
        [[("email", Cell.str "a@x.com")], [("email", Cell.str "")],
          [("email", Cell.str "c@x.com")]]) = 2 * 1000 :=
  ⟨rfl, rfl, by decide⟩

/-- Claim C2 (amended): for a batch of exactly 3 contacts in which only
the second has an empty email, the run appends exactly 2 audit rows after
the header of the fresh log file, emits exactly one skip notice, and
performs inter-request pauses totalling 1 × the configured delay: the only
pause follows the first contact, since the skipped contact consumes no
delay (its `continue` also skips the pause) and no pause follows the last
contact. -/
theorem spec_C2 (args : Args) (env : BatchEnv) (e1 e3 : String)
    (h1 : e1 ≠ "") (h3 : e3 ≠ "") :
    ∃ r1 r3,
      (runBatch args env [[("email", Cell.str e1)], [("email", Cell.str "")],
        [("email", Cell.str e3)]]).logFile = some [headerRow, r1, r3] ∧
      (runBatch args env [[("email", Cell.str e1)], [("email", Cell.str "")],
        [("email", Cell.str e3)]]).skips = 1 ∧
      totalPauseMs args (runBatch args env [[("email", Cell.str e1)],
        [("email", Cell.str "")], [("email", Cell.str e3)]]) = 1 * args.delay_ms := by
  rw [runBatch_three]
  simp only [processRow, getStr_email_single, h1, h3, log_result_eq, totalPauseMs]
  simp [baseRows, one_mul]
  exact ⟨_, _, rfl⟩

/-- Concrete instantiation of the C2 theorem. -/
theorem spec_C2_witness :
    ∃ r1 r3,
      (runBatch ⟨1000, false⟩
        ⟨"tok", "", fun _ => .ok ⟨201, .obj [("id", "D1")], ""⟩, fun _ => .error "unused"⟩
        [[("email", Cell.str "a@x.com")], [("email", Cell.str "")],
          [("email", Cell.str "c@x.com")]]).logFile = some [headerRow, r1, r3] ∧
      (runBatch ⟨1000, false⟩
        ⟨"tok", "", fun _ => .ok ⟨201, .obj [("id", "D1")], ""⟩, fun _ => .error "unused"⟩
        [[("email", Cell.str "a@x.com")], [("email", Cell.str "")],
          [("email", Cell.str "c@x.com")]]).skips = 1 ∧
      totalPauseMs ⟨1000, false⟩
        (runBatch ⟨1000, false⟩
          ⟨"tok", "", fun _ => .ok ⟨201, .obj [("id", "D1")], ""⟩, fun _ => .error "unused"⟩
          [[("email", Cell.str "a@x.com")], [("email", Cell.str "")],
            [("email", Cell.str "c@x.com")]]) = 1 * 1000 :=
  spec_C2 ⟨1000, false⟩
    ⟨"tok", "", fun _ => .ok ⟨201, .obj [("id", "D1")], ""⟩, fun _ => .error "unused"⟩
    "a@x.com" "c@x.com" (by decide) (by decide)

end AIEmails
